import Mathlib

/-
Verification of the Replicon copy-trading pipeline against its specification.

The definitions below are a shallow embedding of the Python sources:
  app/api/webhooks.py          (webhook ingress and normalization)
  app/workers/order_worker.py  (order worker: NEW / MODIFY / CANCEL handling)
  app/services/redis_service.py (order-mapping cache)
  app/services/nats_service.py (event subjects)
  app/services/iifl/normal_client.py and app/core/retry.py (broker client retry)
  replication_service.py       (copy-strategy quantity calculation)

Decimal and float values are modelled as rationals, database tables as lists,
the wall clock as an explicit parameter, and the broker HTTP boundary as a
function from follower id to a result value.
-/

namespace Replicon

/-- Python int() conversion of a rational: truncation toward zero. -/
def pyInt (q : ℚ) : ℤ := if q < 0 then -((-q).floor) else q.floor

/-- Python str.upper() on an ASCII string, written so it evaluates by kernel
reduction (character-wise upper-casing of the underlying list). -/
def py_upper (s : String) : String := String.mk (s.data.map Char.toUpper)

/-- Occurrence test for a character list inside another, by sliding the
pattern over every suffix. -/
def list_infix (pat : List Char) : List Char → Bool
  | [] => pat.isEmpty
  | c :: rest => pat.isPrefixOf (c :: rest) || list_infix pat rest

/-- Python substring test (the in operator on strings). -/
def str_contains (s pat : String) : Bool := list_infix pat.data s.data

/-- UserRole enum from app/models/models.py. -/
inductive UserRole
  | MASTER
  | FOLLOWER
  | BOTH
deriving DecidableEq, Repr

/-- OrderSide enum from app/models/models.py. -/
inductive OrderSide
  | BUY
  | SELL
deriving DecidableEq, Repr

/-- OrderType enum from app/models/models.py. -/
inductive OrderType
  | MARKET
  | LIMIT
  | STOP_LOSS
  | STOP_LOSS_MARKET
deriving DecidableEq, Repr

/-- OrderStatus enum from app/models/models.py. -/
inductive OrderStatus
  | PENDING
  | SUBMITTED
  | FILLED
  | PARTIALLY_FILLED
  | CANCELLED
  | REJECTED
  | FAILED
deriving DecidableEq, Repr

/-- CopyStrategy enum from app/models/models.py. -/
inductive CopyStrategy
  | FIXED_RATIO
  | PERCENTAGE
  | FIXED_QUANTITY
deriving DecidableEq, Repr

/-- User row (app/models/models.py), restricted to the fields the core
pipeline reads. -/
structure User where
  id : Nat
  role : UserRole
  is_active : Bool
  iifl_account_id : String
  balance : ℚ
deriving DecidableEq, Repr

/-- FollowerRelationship row (app/models/models.py), fields used by the
worker and the replication service. -/
structure FollowerRelationship where
  id : Nat
  master_id : Nat
  follower_id : Nat
  copy_strategy : CopyStrategy
  ratio : ℚ
  percentage : ℚ
  fixed_quantity : ℤ
  is_active : Bool
  auto_follow : Bool
deriving DecidableEq, Repr

/-- Order row (app/models/models.py), fields used by ingress and worker. -/
structure Order where
  id : Nat
  user_id : Nat
  master_order_id : Option Nat
  is_master_order : Bool
  symbol : String
  side : OrderSide
  order_type : OrderType
  quantity : ℤ
  price : Option ℚ
  filled_quantity : ℤ
  average_price : ℚ
  status : OrderStatus
  broker_order_id : Option String
  exchange_order_id : Option String
  error_message : Option String
  filled_at : Option Nat
deriving DecidableEq, Repr

/-- OrderMap row (app/models/models.py), the durable master-to-follower
mapping record written by the order worker. -/
structure OrderMap where
  master_order_id : Nat
  master_user_id : Nat
  master_broker_order_id : Option String
  follower_order_id : Nat
  follower_user_id : Nat
  follower_broker_order_id : Option String
  scaling_factor : ℚ
  original_quantity : ℤ
  follower_quantity : ℤ
  replication_status : String
  error_message : Option String
deriving DecidableEq, Repr

/-- BlazeOrderWebhook payload (app/schemas/webhook.py). Optional fields keep
their Option type; fields with pydantic defaults that validation always
fills are plain. Timestamps are abstract naturals. -/
structure BlazeOrderWebhook where
  event_type : String
  timestamp : Option Nat
  order_id : String
  broker_order_id : Option String
  exchange_order_id : Option String
  symbol : String
  scrip_code : Option ℤ
  exchange : String
  segment : String
  transaction_type : String
  order_type : String
  quantity : ℤ
  price : Option ℚ
  trigger_price : Option ℚ
  disclosed_quantity : Option ℤ
  filled_quantity : Option ℤ
  average_price : Option ℚ
  pending_quantity : Option ℤ
  status : String
  product : String
  validity : String
  account_id : String
  metadata : Option (List (String × String))
deriving DecidableEq, Repr

/-- NormalizedOrderEvent (app/schemas/webhook.py): the transport event
produced by normalize_blaze_webhook. -/
structure NormalizedOrderEvent where
  source : String
  master_order_id : Nat
  master_user_id : Nat
  master_broker_order_id : Option String
  event_type : String
  symbol : String
  scrip_code : ℤ
  exchange : String
  exchange_type : String
  side : String
  order_type : String
  quantity : ℤ
  price : ℚ
  trigger_price : ℚ
  disclosed_quantity : ℤ
  filled_quantity : ℤ
  average_price : ℚ
  pending_quantity : ℤ
  status : String
  product : String
  validity : String
  is_intraday : Bool
  timestamp : Nat
  metadata : List (String × String)
deriving DecidableEq, Repr

/-- Event-type map of normalize_blaze_webhook: dict lookup with default NEW. -/
def map_event_type (e : String) : String :=
  if e = "order_placed" then "NEW"
  else if e = "order_modified" then "MODIFY"
  else if e = "order_cancelled" then "CANCEL"
  else if e = "order_filled" then "FILL"
  else "NEW"

/-- Order-type normalization of normalize_blaze_webhook: unmatched values
stay as their upper-cased form. -/
def map_order_type (t : String) : String :=
  let u := py_upper t
  if u = "MARKET" ∨ u = "MKT" then "MARKET"
  else if u = "LIMIT" ∨ u = "LMT" then "LIMIT"
  else if u = "SL" ∨ u = "STOPLOSS" then "STOP_LOSS"
  else if u = "SLM" ∨ u = "SL-M" then "STOP_LOSS_MARKET"
  else u

/-- Exchange map of normalize_blaze_webhook (dict lookup, default N). -/
def map_exchange (e : String) : String :=
  let u := py_upper e
  if u = "NSE" then "N"
  else if u = "BSE" then "B"
  else if u = "NFO" then "N"
  else if u = "MCX" then "M"
  else "N"

/-- Exchange-type map of normalize_blaze_webhook on the segment field
(dict lookup, default C). -/
def map_exchange_type (s : String) : String :=
  let u := py_upper s
  if u = "CASH" then "C"
  else if u = "FO" then "D"
  else if u = "FUTURES" then "D"
  else if u = "OPTIONS" then "D"
  else "C"

/-- Intraday flag of normalize_blaze_webhook: product code membership. -/
def is_intraday_product (p : String) : Bool :=
  let u := py_upper p
  u = "INTRADAY" ∨ u = "MIS" ∨ u = "BO" ∨ u = "CO"

/-- Python truthiness fallback x or y on an optional integer: None and 0
both fall through to the default. -/
def int_or (x : Option ℤ) (dflt : ℤ) : ℤ :=
  match x with
  | some v => if v = 0 then dflt else v
  | none => dflt

/-- normalize_blaze_webhook from app/api/webhooks.py. The now argument
models datetime.utcnow() at the moment of the call; it is read only when
the payload carries no timestamp. -/
def normalize_blaze_webhook (w : BlazeOrderWebhook)
    (master_order_id master_user_id : Nat) (now : Nat) : NormalizedOrderEvent :=
  { source := "blaze"
    master_order_id := master_order_id
    master_user_id := master_user_id
    master_broker_order_id := w.broker_order_id
    event_type := map_event_type w.event_type
    symbol := py_upper w.symbol
    scrip_code := w.scrip_code.getD 0
    exchange := map_exchange w.exchange
    exchange_type := map_exchange_type w.segment
    side := py_upper w.transaction_type
    order_type := map_order_type w.order_type
    quantity := w.quantity
    price := w.price.getD 0
    trigger_price := w.trigger_price.getD 0
    disclosed_quantity := w.disclosed_quantity.getD 0
    filled_quantity := w.filled_quantity.getD 0
    average_price := w.average_price.getD 0
    pending_quantity := int_or w.pending_quantity w.quantity
    status := py_upper w.status
    product := py_upper w.product
    validity := py_upper w.validity
    is_intraday := is_intraday_product w.product
    timestamp := w.timestamp.getD now
    metadata := w.metadata.getD [] }

/-- Master-user lookup of receive_blaze_order_webhook: first user whose role
is MASTER and whose iifl_account_id equals the webhook account id. The
source applies no is_active filter. -/
def find_master_user (users : List User) (account_id : String) : Option User :=
  users.find? fun u =>
    u.role == UserRole.MASTER && u.iifl_account_id == account_id

/-- Master-order lookup of receive_blaze_order_webhook: order keyed by
broker_order_id and owner user id. -/
def find_master_order (orders : List Order) (user_id : Nat) (order_id : String) :
    Option Order :=
  orders.find? fun o =>
    o.broker_order_id == some order_id && o.user_id == user_id

/-- Creation branch of the master-order upsert in receive_blaze_order_webhook. -/
def create_master_order (master_user : User) (w : BlazeOrderWebhook)
    (fresh_id : Nat) : Order :=
  { id := fresh_id
    user_id := master_user.id
    master_order_id := none
    is_master_order := true
    symbol := py_upper w.symbol
    side := if py_upper w.transaction_type = "BUY" then OrderSide.BUY else OrderSide.SELL
    order_type :=
      if py_upper w.order_type = "MARKET" ∨ py_upper w.order_type = "MKT" then
        OrderType.MARKET
      else OrderType.LIMIT
    quantity := w.quantity
    price := w.price
    filled_quantity := w.filled_quantity.getD 0
    average_price := w.average_price.getD 0
    status := OrderStatus.PENDING
    broker_order_id := some w.order_id
    exchange_order_id := w.exchange_order_id
    error_message := none
    filled_at := none }

/-- Update branch of the master-order upsert in receive_blaze_order_webhook:
refresh filled_quantity, average_price and exchange_order_id, then map the
broker status string onto the order status, leaving it unchanged when the
string matches none of the recognized values. -/
def update_master_order (o : Order) (w : BlazeOrderWebhook) (now : Nat) : Order :=
  let s := py_upper w.status
  let o1 : Order :=
    { o with
      filled_quantity := w.filled_quantity.getD 0
      average_price := w.average_price.getD 0
      exchange_order_id := w.exchange_order_id }
  if s = "COMPLETE" ∨ s = "FILLED" then
    { o1 with status := OrderStatus.FILLED, filled_at := some now }
  else if s = "CANCELLED" ∨ s = "CANCELED" then
    { o1 with status := OrderStatus.CANCELLED }
  else if s = "REJECTED" then
    { o1 with status := OrderStatus.REJECTED }
  else o1

/-- Master-order upsert of receive_blaze_order_webhook: create on first
sight of the broker order id, otherwise update in place. Returns the new
table together with the affected row. -/
def upsert_master_order (orders : List Order) (master_user : User)
    (w : BlazeOrderWebhook) (now fresh_id : Nat) : List Order × Order :=
  match find_master_order orders master_user.id w.order_id with
  | none =>
    let o := create_master_order master_user w fresh_id
    (orders ++ [o], o)
  | some o =>
    let u := update_master_order o w now
    (orders.map fun x => if x.id = o.id then u else x, u)

/-- Publish decision of receive_blaze_order_webhook: only the three event
types order_placed, order_modified and order_cancelled reach the bus, under
the subjects of nats_service.OrderEvent. -/
def publish_subject (event_type : String) : Option String :=
  if event_type = "order_placed" then some "order.new"
  else if event_type = "order_modified" then some "order.modified"
  else if event_type = "order_cancelled" then some "order.cancelled"
  else none

/-- Observable outcome of one webhook request: HTTP status, the orders table
after the upsert, the bus messages published, and the follower count of the
200 response. -/
structure IngressResult where
  status_code : Nat
  orders : List Order
  published : List (String × Nat × NormalizedOrderEvent)
  follower_count : Nat
deriving DecidableEq, Repr

/-- receive_blaze_order_webhook from app/api/webhooks.py: resolve the master
user (404 when absent), upsert the master order, normalize, publish by event
type, answer 200. -/
def receive_blaze_order_webhook (users : List User) (orders : List Order)
    (rels : List FollowerRelationship) (w : BlazeOrderWebhook)
    (now fresh_id : Nat) : IngressResult :=
  match find_master_user users w.account_id with
  | none =>
    { status_code := 404, orders := orders, published := [], follower_count := 0 }
  | some mu =>
    let up := upsert_master_order orders mu w now fresh_id
    let fc := (rels.filter fun r => r.master_id == mu.id && r.is_active).length
    let ev := normalize_blaze_webhook w up.2.id mu.id now
    let pubs :=
      match publish_subject w.event_type with
      | some subj => [(subj, up.2.id, ev)]
      | none => []
    { status_code := 200, orders := up.1, published := pubs, follower_count := fc }

/-- Result of the broker place_order call for one follower, as seen by
execute_follower_order: a successful response carrying the broker and
exchange order ids, an IIFLOrderError with its message, or any other
exception (token fetch failure, unexpected error), which the worker
swallows without recording anything. -/
inductive BrokerResult
  | success (broker_order_id exchange_order_id : String)
  | orderError (msg : String)
  | otherError (msg : String)
deriving DecidableEq, Repr

/-- OrderMap row written by execute_follower_order on success. -/
def success_order_map (master : Order) (follower_user : User)
    (rel : FollowerRelationship) (follower_order : Order) : OrderMap :=
  { master_order_id := master.id
    master_user_id := master.user_id
    master_broker_order_id := master.broker_order_id
    follower_order_id := follower_order.id
    follower_user_id := follower_user.id
    follower_broker_order_id := follower_order.broker_order_id
    scaling_factor := rel.ratio
    original_quantity := master.quantity
    follower_quantity := follower_order.quantity
    replication_status := "SUCCESS"
    error_message := none }

/-- store_failed_order_map from app/workers/order_worker.py: the FAILED
OrderMap row recorded when the broker call raises an IIFLOrderError; no
follower order exists, so follower_order_id is 0 and the broker id empty. -/
def store_failed_order_map (master : Order) (follower_user : User)
    (error_message : String) : OrderMap :=
  { master_order_id := master.id
    master_user_id := master.user_id
    master_broker_order_id := master.broker_order_id
    follower_order_id := 0
    follower_user_id := follower_user.id
    follower_broker_order_id := some ""
    scaling_factor := 1
    original_quantity := master.quantity
    follower_quantity := 0
    replication_status := "FAILED"
    error_message := some error_message }

/-- Observable effect of execute_follower_order for one relationship: the
follower Order row inserted (if any), the OrderMap row inserted (if any),
the cache entry published to Redis (if any), whether the broker was
reached, and the returned follower order id. -/
structure FollowerOutcome where
  follower_id : Nat
  newOrder : Option Order
  orderMapRow : Option OrderMap
  cachePut : Option (Nat × Nat × Option String)
  brokerCalled : Bool
  retVal : Option Nat
deriving DecidableEq, Repr

/-- Outcome of a relationship that is skipped before any broker call:
inactive or missing follower user, or a computed quantity of zero or
less. Nothing is inserted and None is returned. -/
def skipped_outcome (rel : FollowerRelationship) : FollowerOutcome :=
  { follower_id := rel.follower_id
    newOrder := none
    orderMapRow := none
    cachePut := none
    brokerCalled := false
    retVal := none }

/-- execute_follower_order from app/workers/order_worker.py. The follower
quantity is always int(master quantity times the relationship ratio),
independent of the copy strategy. fresh_id models the database-assigned id
of the follower order row. -/
def execute_follower_order (users : List User) (master : Order)
    (rel : FollowerRelationship) (broker : Nat → BrokerResult)
    (fresh_id : Nat) : FollowerOutcome :=
  match users.find? (fun u => u.id == rel.follower_id) with
  | none => skipped_outcome rel
  | some follower_user =>
    if follower_user.is_active = false then skipped_outcome rel
    else
      let follower_quantity : ℤ := pyInt ((master.quantity : ℚ) * rel.ratio)
      if follower_quantity ≤ 0 then skipped_outcome rel
      else
        match broker rel.follower_id with
        | BrokerResult.success bid eid =>
          let follower_order : Order :=
            { id := fresh_id
              user_id := follower_user.id
              master_order_id := some master.id
              is_master_order := false
              symbol := master.symbol
              side := master.side
              order_type := master.order_type
              quantity := follower_quantity
              price := master.price
              filled_quantity := 0
              average_price := 0
              status := OrderStatus.SUBMITTED
              broker_order_id := some bid
              exchange_order_id := some eid
              error_message := none
              filled_at := none }
          { follower_id := rel.follower_id
            newOrder := some follower_order
            orderMapRow := some (success_order_map master follower_user rel follower_order)
            cachePut := some (follower_user.id, fresh_id, some bid)
            brokerCalled := true
            retVal := some fresh_id }
        | BrokerResult.orderError msg =>
          { follower_id := rel.follower_id
            newOrder := none
            orderMapRow := some (store_failed_order_map master follower_user msg)
            cachePut := none
            brokerCalled := true
            retVal := none }
        | BrokerResult.otherError _ =>
          { follower_id := rel.follower_id
            newOrder := none
            orderMapRow := none
            cachePut := none
            brokerCalled := true
            retVal := none }

/-- Fan-out pass of handle_new_order over a list of relationships, threading
a fresh id for each potential follower order. -/
def fanout (users : List User) (master : Order) (broker : Nat → BrokerResult) :
    List FollowerRelationship → Nat → List FollowerOutcome
  | [], _ => []
  | r :: rs, k =>
    execute_follower_order users master r broker k ::
      fanout users master broker rs (k + 1)

/-- Python truthiness of the value returned by execute_follower_order, as
used by the success count of handle_new_order: None and 0 are falsy. -/
def truthy_ret : Option Nat → Bool
  | some n => n != 0
  | none => false

/-- Observable outcome of handle_new_order followed by the ack in
process_order_event: per-follower effects, the audit counters of the
REPLICATION_COMPLETED row, and whether the bus message was acked. -/
structure NewOrderResult where
  outcomes : List FollowerOutcome
  success_count : Nat
  failed_count : Nat
  acked : Bool
deriving DecidableEq, Repr

/-- handle_new_order from app/workers/order_worker.py: load the master order
and its owner, select relationships that are active with auto_follow, fan
out, count successes. A missing master order returns without error and the
message is acked; a missing owner raises and the message is nacked. -/
def handle_new_order (orders : List Order) (users : List User)
    (rels : List FollowerRelationship) (master_order_id : Nat)
    (broker : Nat → BrokerResult) (base_id : Nat) : NewOrderResult :=
  match orders.find? (fun o => o.id == master_order_id) with
  | none => { outcomes := [], success_count := 0, failed_count := 0, acked := true }
  | some master =>
    match users.find? (fun u => u.id == master.user_id) with
    | none => { outcomes := [], success_count := 0, failed_count := 0, acked := false }
    | some mu =>
      let active := rels.filter fun r =>
        r.master_id == mu.id && r.is_active && r.auto_follow
      if active.isEmpty then
        { outcomes := [], success_count := 0, failed_count := 0, acked := true }
      else
        let outs := fanout users master broker active base_id
        let sc := (outs.filter fun o => truthy_ret o.retVal).length
        { outcomes := outs
          success_count := sc
          failed_count := outs.length - sc
          acked := true }

/-- Cache entry stored under one follower user id in the Redis order
mapping (redis_service.set_order_mapping). -/
structure MappingEntry where
  follower_order_id : Nat
  follower_broker_order_id : Option String
deriving DecidableEq, Repr

/-- Redis value at key order:map:master_order_id — an association list from
follower user id to mapping entry. -/
abbrev OrderMapping := List (Nat × MappingEntry)

/-- get_order_mapping from app/services/redis_service.py, composed with the
Python truthiness test of the handlers: a missing key and an empty mapping
are indistinguishable downstream, so both give the empty list. -/
def get_order_mapping (cache : List (Nat × OrderMapping))
    (master_order_id : Nat) : OrderMapping :=
  match cache.find? (fun kv => kv.1 == master_order_id) with
  | some kv => kv.2
  | none => []

/-- Observable outcome of handle_modify_order or handle_cancel_order plus
the ack in process_order_event: the orders table afterwards, the broker
calls attempted (OrderFor code and follower order id), and the ack flag. -/
structure ModifyCancelResult where
  orders : List Order
  broker_calls : List (String × Nat)
  acked : Bool
deriving DecidableEq, Repr

/-- modify_follower_order from app/workers/order_worker.py: load the
follower order, call the broker modify, and on success set its price to the
price carried by the event. Token and broker failures are swallowed and
leave the row unchanged. mbroker tells, per follower order id, whether the
call chain succeeds. -/
def modify_follower_order (orders : List Order) (follower_order_id : Nat)
    (ev : NormalizedOrderEvent) (mbroker : Nat → Bool) :
    List Order × List (String × Nat) :=
  match orders.find? (fun o => o.id == follower_order_id) with
  | none => (orders, [])
  | some _ =>
    if mbroker follower_order_id then
      (orders.map fun x =>
        if x.id = follower_order_id then { x with price := some ev.price } else x,
        [("M", follower_order_id)])
    else (orders, [("M", follower_order_id)])

/-- cancel_follower_order from app/workers/order_worker.py: like modify, but
on success the follower order status becomes CANCELLED. -/
def cancel_follower_order (orders : List Order) (follower_order_id : Nat)
    (mbroker : Nat → Bool) : List Order × List (String × Nat) :=
  match orders.find? (fun o => o.id == follower_order_id) with
  | none => (orders, [])
  | some _ =>
    if mbroker follower_order_id then
      (orders.map fun x =>
        if x.id = follower_order_id then { x with status := OrderStatus.CANCELLED } else x,
        [("C", follower_order_id)])
    else (orders, [("C", follower_order_id)])

/-- handle_modify_order from app/workers/order_worker.py. The mapping is
read from the Redis cache only; the durable order_maps table is available
in the session but never queried, which is why the result ignores that
argument. An empty mapping logs, changes nothing, and the message is acked. -/
def handle_modify_order (orders : List Order) (cache : List (Nat × OrderMapping))
    (order_maps : List OrderMap) (master_order_id : Nat)
    (ev : NormalizedOrderEvent) (mbroker : Nat → Bool) : ModifyCancelResult :=
  let _ := order_maps
  let mapping := get_order_mapping cache master_order_id
  if mapping.isEmpty then
    { orders := orders, broker_calls := [], acked := true }
  else
    let r := mapping.foldl
      (fun acc entry =>
        if entry.2.follower_order_id = 0 then acc
        else
          let step := modify_follower_order acc.1 entry.2.follower_order_id ev mbroker
          (step.1, acc.2 ++ step.2))
      (orders, [])
    { orders := r.1, broker_calls := r.2, acked := true }

/-- handle_cancel_order from app/workers/order_worker.py, with the same
cache-only mapping lookup as handle_modify_order. -/
def handle_cancel_order (orders : List Order) (cache : List (Nat × OrderMapping))
    (order_maps : List OrderMap) (master_order_id : Nat)
    (ev : NormalizedOrderEvent) (mbroker : Nat → Bool) : ModifyCancelResult :=
  let _ := order_maps
  let mapping := get_order_mapping cache master_order_id
  if mapping.isEmpty then
    { orders := orders, broker_calls := [], acked := true }
  else
    let r := mapping.foldl
      (fun acc entry =>
        if entry.2.follower_order_id = 0 then acc
        else
          let step := cancel_follower_order acc.1 entry.2.follower_order_id mbroker
          (step.1, acc.2 ++ step.2))
      (orders, [])
    { orders := r.1, broker_calls := r.2, acked := true }

/-- Dispatch of process_order_event in app/workers/order_worker.py: the
event type string is tested for the three known substrings; anything else
is logged as unknown and the message is still acked. -/
inductive WorkerEvent
  | newOrder
  | modified
  | cancelled
  | unknown
deriving DecidableEq, Repr

/-- Event-type dispatch of process_order_event (substring membership, in
source order). -/
def worker_dispatch (event_type : String) : WorkerEvent :=
  if str_contains event_type "order.new" then WorkerEvent.newOrder
  else if str_contains event_type "order.modified" then WorkerEvent.modified
  else if str_contains event_type "order.cancelled" then WorkerEvent.cancelled
  else WorkerEvent.unknown

/-- Exception classes of app/core/exceptions.py that escape the IIFL client
methods. -/
inductive IIFLError
  | authenticationError (msg : String)
  | orderError (msg : String)
  | connectionError (msg : String)
  | rateLimitError (msg : String)
deriving DecidableEq, Repr

/-- Low-level ways an IIFL HTTP call can fail before the client wraps it:
a non-2xx response (raise_for_status), a 2xx response whose body reports
failure, a transport error, or a timeout. -/
inductive HttpFailure
  | statusError (code : Nat)
  | bodyFailure (msg : String)
  | networkError (msg : String)
  | timeout
deriving DecidableEq, Repr

/-- Exception wrapping of IIFLNormalClient.vendor_login. A failing body
raises IIFLAuthenticationError inside the try block, which the generic
except clause immediately re-wraps as IIFLConnectionError; only an
HTTPStatusError surfaces as IIFLAuthenticationError. client_login behaves
identically. -/
def vendor_login_wrap : HttpFailure → IIFLError
  | HttpFailure.statusError _ =>
    IIFLError.authenticationError "Vendor login failed"
  | HttpFailure.bodyFailure msg =>
    IIFLError.connectionError
      ("Vendor login connection error: Vendor login failed: " ++ msg)
  | HttpFailure.networkError msg =>
    IIFLError.connectionError ("Vendor login connection error: " ++ msg)
  | HttpFailure.timeout =>
    IIFLError.connectionError "Vendor login connection error: timeout"

/-- Exception wrapping of IIFLNormalClient.place_order. Only an HTTP 429
becomes IIFLRateLimitError; every other failure, including transport
errors and timeouts, is wrapped as IIFLOrderError. modify_order and
cancel_order wrap everything as IIFLOrderError with no 429 case. -/
def place_order_wrap : HttpFailure → IIFLError
  | HttpFailure.statusError code =>
    if code = 429 then IIFLError.rateLimitError "Rate limit exceeded"
    else IIFLError.orderError "Order placement failed"
  | HttpFailure.bodyFailure msg =>
    IIFLError.orderError ("Order placement error: Order failed: " ++ msg)
  | HttpFailure.networkError msg =>
    IIFLError.orderError ("Order placement error: " ++ msg)
  | HttpFailure.timeout =>
    IIFLError.orderError "Order placement error: timeout"

/-- Exception filter of retry_iifl_api (app/core/retry.py): the decorator
retries IIFLRateLimitError, IIFLConnectionError and asyncio.TimeoutError;
among the wrapped client errors, exactly the rate-limit and connection
classes are retried. -/
def retried_by_client : IIFLError → Bool
  | IIFLError.rateLimitError _ => true
  | IIFLError.connectionError _ => true
  | IIFLError.authenticationError _ => false
  | IIFLError.orderError _ => false

/-- Backoff delay before retry number attempt+1 in exponential_backoff_retry:
base_delay times exponential_base to the attempt, clipped at max_delay. -/
def backoff_delay (base_delay max_delay : ℚ) (attempt : Nat) : ℚ :=
  min (base_delay * 2 ^ attempt) max_delay

/-- Delay cap passed by retry_iifl_api to retry_on_failure. -/
def retry_iifl_api_max_delay : ℚ := 30

/-- Retry budget of the place_order, modify_order and cancel_order
decorators (attempts beyond the first call). -/
def place_order_max_retries : Nat := 2

/-- Retry budget of the vendor_login and client_login decorators. -/
def vendor_login_max_retries : Nat := 3

/-- Copy-strategy quantity of
OrderReplicationService._calculate_follower_orders in replication_service.py:
ratio scaling, percentage of balance over price (falling back to the master
quantity when the price is falsy), or a fixed quantity. -/
def calculate_follower_quantity (u : User) (rel : FollowerRelationship)
    (master : Order) : ℤ :=
  match rel.copy_strategy with
  | CopyStrategy.FIXED_RATIO => pyInt ((master.quantity : ℚ) * rel.ratio)
  | CopyStrategy.PERCENTAGE =>
    match master.price with
    | some p => if p = 0 then master.quantity else pyInt (u.balance * rel.percentage / 100 / p)
    | none => master.quantity
  | CopyStrategy.FIXED_QUANTITY => rel.fixed_quantity

/-- Sample order_placed webhook, after the scenario in the test suite. It
carries no timestamp, which is the interesting case for normalization. -/
def w_new : BlazeOrderWebhook :=
  { event_type := "order_placed"
    timestamp := none
    order_id := "230614000123456"
    broker_order_id := some "12345678"
    exchange_order_id := some "1100000012345678"
    symbol := "RELIANCE"
    scrip_code := some 2885
    exchange := "NSE"
    segment := "CASH"
    transaction_type := "BUY"
    order_type := "LIMIT"
    quantity := 10
    price := some (mkRat 2500 1)
    trigger_price := some 0
    disclosed_quantity := some 0
    filled_quantity := some 0
    average_price := some 0
    pending_quantity := some 10
    status := "PENDING"
    product := "DELIVERY"
    validity := "DAY"
    account_id := "MASTER001"
    metadata := some [] }

/-- The same webhook with an explicit timestamp. -/
def w_new_ts : BlazeOrderWebhook := { w_new with timestamp := some 42 }

/-- An order_filled webhook for the same order. -/
def w_fill : BlazeOrderWebhook :=
  { w_new with
    event_type := "order_filled"
    status := "COMPLETE"
    filled_quantity := some 10
    average_price := some (mkRat 2500 1) }

/-- An order_modified webhook for the same order with a new price. -/
def w_modify : BlazeOrderWebhook :=
  { w_new with event_type := "order_modified", price := some (mkRat 2510 1) }

/-- Active master user owning account MASTER001. -/
def master001 : User :=
  { id := 1, role := UserRole.MASTER, is_active := true
    iifl_account_id := "MASTER001", balance := 100 }

/-- Deactivated master user owning account MASTER001. -/
def inactive_master : User :=
  { id := 3, role := UserRole.MASTER, is_active := false
    iifl_account_id := "MASTER001", balance := 100 }

/-- Active follower user 7. -/
def follower7 : User :=
  { id := 7, role := UserRole.FOLLOWER, is_active := true
    iifl_account_id := "FOLL007", balance := 100 }

/-- Active follower user 8. -/
def follower8 : User :=
  { id := 8, role := UserRole.FOLLOWER, is_active := true
    iifl_account_id := "FOLL008", balance := 100 }

/-- User table with one master and two followers. -/
def demo_users : List User := [master001, follower7, follower8]

/-- Master order 10 owned by user 1: BUY 10 RELIANCE at limit 2500. -/
def master_order10 : Order :=
  { id := 10
    user_id := 1
    master_order_id := none
    is_master_order := true
    symbol := "RELIANCE"
    side := OrderSide.BUY
    order_type := OrderType.LIMIT
    quantity := 10
    price := some (mkRat 2500 1)
    filled_quantity := 0
    average_price := 0
    status := OrderStatus.PENDING
    broker_order_id := some "230614000123456"
    exchange_order_id := none
    error_message := none
    filled_at := none }

/-- Relationship master 1 to follower 7, fixed ratio 1. -/
def rel7 : FollowerRelationship :=
  { id := 71, master_id := 1, follower_id := 7
    copy_strategy := CopyStrategy.FIXED_RATIO
    ratio := 1, percentage := 10, fixed_quantity := 1
    is_active := true, auto_follow := true }

/-- Relationship master 1 to follower 8, fixed ratio 2. -/
def rel8 : FollowerRelationship :=
  { id := 81, master_id := 1, follower_id := 8
    copy_strategy := CopyStrategy.FIXED_RATIO
    ratio := 2, percentage := 10, fixed_quantity := 1
    is_active := true, auto_follow := true }

/-- Relationship like rel7 but with ratio 0, so the computed quantity
rounds to zero. -/
def rel_zero : FollowerRelationship := { rel7 with id := 72, ratio := 0 }

/-- Relationship master 1 to follower 7 under the FIXED_QUANTITY strategy
with fixed quantity 5. -/
def rel_fixed_qty : FollowerRelationship :=
  { id := 73, master_id := 1, follower_id := 7
    copy_strategy := CopyStrategy.FIXED_QUANTITY
    ratio := 1, percentage := 10, fixed_quantity := 5
    is_active := true, auto_follow := true }

/-- Broker behaviour accepting every order. -/
def demo_broker_ok : Nat → BrokerResult :=
  fun _ => BrokerResult.success "B900" "E900"

/-- Broker behaviour rejecting follower 8 and accepting everyone else. -/
def demo_broker_rej8 : Nat → BrokerResult :=
  fun g =>
    if g = 8 then BrokerResult.orderError "Order failed: Insufficient margin"
    else BrokerResult.success "B900" "E900"

/-- Follower order 42 created for follower 7 from master order 10. -/
def follower_order42 : Order :=
  { id := 42
    user_id := 7
    master_order_id := some 10
    is_master_order := false
    symbol := "RELIANCE"
    side := OrderSide.BUY
    order_type := OrderType.LIMIT
    quantity := 10
    price := some (mkRat 2500 1)
    filled_quantity := 0
    average_price := 0
    status := OrderStatus.SUBMITTED
    broker_order_id := some "B900"
    exchange_order_id := some "E900"
    error_message := none
    filled_at := none }

/-- Durable order_maps table holding the SUCCESS row that links master
order 10 to follower order 42. -/
def demo_store : List OrderMap :=
  [{ master_order_id := 10
     master_user_id := 1
     master_broker_order_id := some "230614000123456"
     follower_order_id := 42
     follower_user_id := 7
     follower_broker_order_id := some "B900"
     scaling_factor := 1
     original_quantity := 10
     follower_quantity := 10
     replication_status := "SUCCESS"
     error_message := none }]

/-- Normalized MODIFY event for master order 10 as the worker receives it. -/
def demo_modify_ev : NormalizedOrderEvent := normalize_blaze_webhook w_modify 10 1 0

/-- C1: a MODIFY or CANCEL event whose master order id has no order mapping
changes no orders, performs no broker calls (in particular creates no new
follower order), and the message is acked as a no-op. -/
theorem modify_cancel_without_mapping_is_noop
    (orders : List Order) (cache : List (Nat × OrderMapping))
    (order_maps : List OrderMap) (master_order_id : Nat)
    (ev : NormalizedOrderEvent) (mbroker : Nat → Bool)
    (h : get_order_mapping cache master_order_id = []) :
    handle_modify_order orders cache order_maps master_order_id ev mbroker
      = { orders := orders, broker_calls := [], acked := true } ∧
    handle_cancel_order orders cache order_maps master_order_id ev mbroker
      = { orders := orders, broker_calls := [], acked := true } := by
  unfold handle_modify_order handle_cancel_order
  rw [h]
  simp

/-- Witness for C1 at a concrete state: empty cache for master order 10
while the orders table holds an unrelated follower order. -/
theorem modify_cancel_without_mapping_is_noop_witness :
    get_order_mapping [] 10 = [] ∧
    handle_modify_order [follower_order42] [] demo_store 10 demo_modify_ev
        (fun _ => true)
      = { orders := [follower_order42], broker_calls := [], acked := true } :=
  ⟨rfl,
    (modify_cancel_without_mapping_is_noop [follower_order42] [] demo_store 10
      demo_modify_ev (fun _ => true) rfl).1⟩

/-- C4: the MODIFY and CANCEL handlers read only the Redis cache. Their
result is invariant under any change to the durable order_maps table, and
at the failing input — cache expired, durable SUCCESS row present for
master order 10 — they perform no broker call and change nothing instead
of falling back to the store. -/
theorem modify_cancel_read_cache_only :
    (∀ (orders : List Order) (cache : List (Nat × OrderMapping))
        (oms : List OrderMap) (mid : Nat) (ev : NormalizedOrderEvent)
        (mb : Nat → Bool),
      handle_modify_order orders cache oms mid ev mb
          = handle_modify_order orders cache [] mid ev mb ∧
        handle_cancel_order orders cache oms mid ev mb
          = handle_cancel_order orders cache [] mid ev mb) ∧
    handle_modify_order [follower_order42] [] demo_store 10 demo_modify_ev
        (fun _ => true)
      = { orders := [follower_order42], broker_calls := [], acked := true } ∧
    handle_cancel_order [follower_order42] [] demo_store 10 demo_modify_ev
        (fun _ => true)
      = { orders := [follower_order42], broker_calls := [], acked := true } := by
  exact ⟨fun orders cache oms mid ev mb => ⟨rfl, rfl⟩, rfl, rfl⟩

/-- C5: classification of client failures against the retry decorator. A
vendor-login body failure (a broker auth failure) is wrapped as a
connection error and therefore retried; transport errors and timeouts in
place_order are wrapped as order errors and therefore not retried; HTTP 429
on place_order is retried; order rejections are not; and every backoff
delay is capped at 30 seconds. -/
theorem client_retry_classification :
    vendor_login_wrap (HttpFailure.bodyFailure "Invalid credentials")
      = IIFLError.connectionError
          "Vendor login connection error: Vendor login failed: Invalid credentials" ∧
    retried_by_client
        (vendor_login_wrap (HttpFailure.bodyFailure "Invalid credentials")) = true ∧
    retried_by_client
        (place_order_wrap (HttpFailure.networkError "connection reset")) = false ∧
    retried_by_client (place_order_wrap HttpFailure.timeout) = false ∧
    retried_by_client (place_order_wrap (HttpFailure.statusError 429)) = true ∧
    retried_by_client
        (place_order_wrap (HttpFailure.bodyFailure "Insufficient margin")) = false ∧
    retried_by_client
        (vendor_login_wrap (HttpFailure.networkError "connection reset")) = true ∧
    ∀ attempt : Nat,
      backoff_delay 1 retry_iifl_api_max_delay attempt ≤ 30 ∧
        backoff_delay (1 / 2) retry_iifl_api_max_delay attempt ≤ 30 := by
  refine ⟨by decide, by decide, by decide, by decide, by decide, by decide,
    by decide, ?_⟩
  intro attempt
  constructor <;>
    · unfold backoff_delay retry_iifl_api_max_delay
      exact min_le_right _ _

set_option maxRecDepth 8000 in
/-- C6 counterexample: a webhook whose account code belongs only to a
deactivated MASTER user is still resolved and answered 200, not 404 — the
lookup never checks is_active. -/
theorem webhook_inactive_master_not_404 :
    inactive_master.is_active = false ∧
    (receive_blaze_order_webhook [inactive_master] [] [] w_new 0 100).status_code
      = 200 ∧
    (receive_blaze_order_webhook [inactive_master] [] [] w_new 0 100).status_code
      ≠ 404 := by
  refine ⟨rfl, ?_, ?_⟩ <;> decide

/-- C6 amended: the endpoint answers 404 exactly when no user with role
MASTER carries the webhook account code, regardless of the is_active flag. -/
theorem webhook_404_iff_no_master_account (users : List User)
    (orders : List Order) (rels : List FollowerRelationship)
    (w : BlazeOrderWebhook) (now fresh_id : Nat) :
    ((receive_blaze_order_webhook users orders rels w now fresh_id).status_code = 404
      ↔ find_master_user users w.account_id = none) ∧
    (find_master_user users w.account_id = none
      ↔ ∀ u ∈ users,
          ¬(u.role = UserRole.MASTER ∧ u.iifl_account_id = w.account_id)) := by
  constructor
  · unfold receive_blaze_order_webhook
    cases h : find_master_user users w.account_id <;> simp [h]
  · unfold find_master_user
    rw [List.find?_eq_none]
    simp

/-- Witness for C6 amended on a concrete state: with only the inactive
master present, the 404 characterization evaluates on both sides. -/
theorem webhook_404_iff_no_master_account_witness :
    (receive_blaze_order_webhook [inactive_master] [] [] w_new 0 100).status_code
        = 404
      ↔ find_master_user [inactive_master] w_new.account_id = none :=
  (webhook_404_iff_no_master_account [inactive_master] [] [] w_new 0 100).1

/-- C8 counterexample: normalizing the same raw payload twice gives
different events when the payload carries no timestamp, because the source
substitutes the wall clock. -/
theorem normalize_depends_on_clock_without_timestamp :
    w_new.timestamp = none ∧
    normalize_blaze_webhook w_new 1 1 0 ≠ normalize_blaze_webhook w_new 1 1 1 := by
  refine ⟨rfl, ?_⟩
  have h0 : (normalize_blaze_webhook w_new 1 1 0).timestamp = 0 := rfl
  have h1 : (normalize_blaze_webhook w_new 1 1 1).timestamp = 1 := rfl
  intro h
  rw [h, h1] at h0
  exact absurd h0 (by decide)

/-- C8 amended: normalization is a deterministic function of the payload
and ids whenever the payload carries a timestamp; and in every case the two
results can differ at most in the timestamp field. -/
theorem normalize_deterministic_with_timestamp (w : BlazeOrderWebhook)
    (t m u n1 n2 : Nat) (h : w.timestamp = some t) :
    normalize_blaze_webhook w m u n1 = normalize_blaze_webhook w m u n2 ∧
    ∀ v1 v2 : Nat,
      { normalize_blaze_webhook w m u v1 with timestamp := 0 }
        = { normalize_blaze_webhook w m u v2 with timestamp := 0 } := by
  constructor
  · simp [normalize_blaze_webhook, h]
  · intro v1 v2
    rfl

/-- Witness for C8 amended: the payload with an explicit timestamp
normalizes identically under two different clock readings. -/
theorem normalize_deterministic_with_timestamp_witness :
    w_new_ts.timestamp = some 42 ∧
    normalize_blaze_webhook w_new_ts 1 1 5 = normalize_blaze_webhook w_new_ts 1 1 9 :=
  ⟨rfl, (normalize_deterministic_with_timestamp w_new_ts 42 1 1 5 9 rfl).1⟩

/-- C9: updating an existing master order from a webhook touches exactly
filled_quantity, average_price, exchange_order_id and the status (per the
COMPLETE or FILLED, CANCELLED or CANCELED, REJECTED mapping, else left
as-is), while symbol, side, order type, quantity and price are unchanged. -/
theorem master_update_frame (o : Order) (w : BlazeOrderWebhook) (now : Nat) :
    (update_master_order o w now).symbol = o.symbol ∧
    (update_master_order o w now).side = o.side ∧
    (update_master_order o w now).order_type = o.order_type ∧
    (update_master_order o w now).quantity = o.quantity ∧
    (update_master_order o w now).price = o.price ∧
    (update_master_order o w now).filled_quantity = w.filled_quantity.getD 0 ∧
    (update_master_order o w now).average_price = w.average_price.getD 0 ∧
    (update_master_order o w now).exchange_order_id = w.exchange_order_id ∧
    (update_master_order o w now).status =
      (if py_upper w.status = "COMPLETE" ∨ py_upper w.status = "FILLED" then
        OrderStatus.FILLED
      else if py_upper w.status = "CANCELLED" ∨ py_upper w.status = "CANCELED" then
        OrderStatus.CANCELLED
      else if py_upper w.status = "REJECTED" then OrderStatus.REJECTED
      else o.status) := by
  unfold update_master_order
  split_ifs <;> simp_all

/-- C10: an order_filled webhook for a resolved master is answered 200 and
applies the master-order upsert, but publishes nothing; only the three
event types order_placed, order_modified and order_cancelled publish, and
the worker dispatch has no branch for the filled subject. -/
theorem order_filled_not_published (users : List User) (orders : List Order)
    (rels : List FollowerRelationship) (w : BlazeOrderWebhook)
    (now fresh_id : Nat) (mu : User)
    (hmu : find_master_user users w.account_id = some mu)
    (hfill : w.event_type = "order_filled") :
    (receive_blaze_order_webhook users orders rels w now fresh_id).status_code
        = 200 ∧
    (receive_blaze_order_webhook users orders rels w now fresh_id).published
        = [] ∧
    (receive_blaze_order_webhook users orders rels w now fresh_id).orders
        = (upsert_master_order orders mu w now fresh_id).1 ∧
    (∀ e, (publish_subject e).isSome
        ↔ (e = "order_placed" ∨ e = "order_modified" ∨ e = "order_cancelled")) ∧
    worker_dispatch "order.new" = WorkerEvent.newOrder ∧
    worker_dispatch "order.modified" = WorkerEvent.modified ∧
    worker_dispatch "order.cancelled" = WorkerEvent.cancelled ∧
    worker_dispatch "order.filled" = WorkerEvent.unknown := by
  refine ⟨?_, ?_, ?_, fun e => ?_, by decide, by decide, by decide, by decide⟩
  · simp [receive_blaze_order_webhook, hmu]
  · simp [receive_blaze_order_webhook, hmu, hfill, publish_subject]
  · simp [receive_blaze_order_webhook, hmu]
  · unfold publish_subject
    split_ifs <;> simp_all

set_option maxRecDepth 8000 in
/-- Witness for C10: the concrete order_filled webhook against the master
user table resolves and produces no publication. -/
theorem order_filled_not_published_witness :
    find_master_user [master001] w_fill.account_id = some master001 ∧
    w_fill.event_type = "order_filled" ∧
    (receive_blaze_order_webhook [master001] [master_order10] [] w_fill 7 101).published
      = [] :=
  ⟨by decide, rfl,
    (order_filled_not_published [master001] [master_order10] [] w_fill 7 101
      master001 (by decide) rfl).2.1⟩

/-- Helper: every branch of execute_follower_order reports the follower id
of the relationship it was given. -/
theorem execute_follower_order_follower_id (users : List User) (master : Order)
    (rel : FollowerRelationship) (broker : Nat → BrokerResult) (k : Nat) :
    (execute_follower_order users master rel broker k).follower_id
      = rel.follower_id := by
  unfold execute_follower_order
  cases users.find? (fun u => u.id == rel.follower_id) with
  | none => rfl
  | some fu =>
    dsimp only
    split_ifs <;> try rfl
    cases broker rel.follower_id <;> rfl

/-- Helper: execute_follower_order reads the broker behaviour only at the
follower id of its relationship. -/
theorem execute_follower_order_congr (users : List User) (master : Order)
    (rel : FollowerRelationship) (broker broker2 : Nat → BrokerResult) (k : Nat)
    (hb : broker2 rel.follower_id = broker rel.follower_id) :
    execute_follower_order users master rel broker2 k
      = execute_follower_order users master rel broker k := by
  unfold execute_follower_order
  rw [hb]

/-- Helper: changing the broker behaviour of a single follower does not
change the fan-out outcomes of any other follower. -/
theorem fanout_filter_congr (users : List User) (master : Order)
    (broker broker2 : Nat → BrokerResult) (f : Nat)
    (hagree : ∀ g, g ≠ f → broker2 g = broker g) :
    ∀ (rels : List FollowerRelationship) (k : Nat),
      ((fanout users master broker2 rels k).filter fun o => o.follower_id != f)
        = ((fanout users master broker rels k).filter fun o => o.follower_id != f) := by
  intro rels
  induction rels with
  | nil => intro k; rfl
  | cons r rs ih =>
    intro k
    simp only [fanout, List.filter_cons]
    by_cases hrf : r.follower_id = f
    · have h2 : (execute_follower_order users master r broker2 k).follower_id = f := by
        rw [execute_follower_order_follower_id]; exact hrf
      have h1 : (execute_follower_order users master r broker k).follower_id = f := by
        rw [execute_follower_order_follower_id]; exact hrf
      simp [h1, h2, ih (k + 1)]
    · rw [execute_follower_order_congr users master r broker broker2 k
        (hagree r.follower_id hrf), ih (k + 1)]

/-- C3: when the broker rejects one follower during NEW fan-out, that
follower gets a FAILED OrderMap row carrying the error and no follower
Order; the outcomes of every sibling are independent of this rejection; and
the master event is still acked. -/
theorem rejected_follower_isolated (users : List User) (orders : List Order)
    (master : Order) (rel : FollowerRelationship)
    (broker broker2 : Nat → BrokerResult)
    (rels : List FollowerRelationship) (fu mu : User) (msg : String)
    (k base_id : Nat)
    (hfu : users.find? (fun u => u.id == rel.follower_id) = some fu)
    (hact : fu.is_active = true)
    (hqty : 0 < pyInt ((master.quantity : ℚ) * rel.ratio))
    (hrej : broker rel.follower_id = BrokerResult.orderError msg)
    (hagree : ∀ g, g ≠ rel.follower_id → broker2 g = broker g)
    (hmaster : orders.find? (fun o => o.id == master.id) = some master)
    (hmu : users.find? (fun u => u.id == master.user_id) = some mu) :
    (execute_follower_order users master rel broker k).newOrder = none ∧
    (execute_follower_order users master rel broker k).orderMapRow
      = some (store_failed_order_map master fu msg) ∧
    (store_failed_order_map master fu msg).replication_status = "FAILED" ∧
    (store_failed_order_map master fu msg).error_message = some msg ∧
    (store_failed_order_map master fu msg).follower_order_id = 0 ∧
    ((fanout users master broker2 rels k).filter
        fun o => o.follower_id != rel.follower_id)
      = ((fanout users master broker rels k).filter
          fun o => o.follower_id != rel.follower_id) ∧
    (handle_new_order orders users rels master.id broker base_id).acked = true := by
  have hexec : execute_follower_order users master rel broker k
      = { follower_id := rel.follower_id
          newOrder := none
          orderMapRow := some (store_failed_order_map master fu msg)
          cachePut := none
          brokerCalled := true
          retVal := none } := by
    simp only [execute_follower_order, hfu, hact, hrej, not_le.mpr hqty]
    simp
  refine ⟨by rw [hexec], by rw [hexec], rfl, rfl, rfl,
    fanout_filter_congr users master broker broker2 rel.follower_id hagree rels k,
    ?_⟩
  unfold handle_new_order
  simp only [hmaster, hmu]
  split <;> rfl

unseal Rat.mul in
set_option maxRecDepth 8000 in
/-- Witness for C3: follower 8 is rejected by the broker while follower 7
is accepted; the failed row is recorded and the event acked. -/
theorem rejected_follower_isolated_witness :
    demo_broker_rej8 8 = BrokerResult.orderError "Order failed: Insufficient margin" ∧
    (execute_follower_order demo_users master_order10 rel8 demo_broker_rej8 101).orderMapRow
      = some (store_failed_order_map master_order10 follower8
          "Order failed: Insufficient margin") ∧
    (handle_new_order [master_order10] demo_users [rel7, rel8] 10 demo_broker_rej8
        100).acked = true := by
  have h := rejected_follower_isolated demo_users [master_order10] master_order10
    rel8 demo_broker_rej8 demo_broker_rej8 [rel7, rel8] follower8 master001
    "Order failed: Insufficient margin" 101 100
    (by decide) rfl (by decide) rfl
    (fun g _ => rfl) (by decide) (by decide)
  exact ⟨rfl, h.2.1, h.2.2.2.2.2.2⟩

unseal Rat.mul in
set_option maxRecDepth 8000 in
/-- C2 counterexample: under the FIXED_QUANTITY strategy with fixed
quantity 5, the worker still places the ratio-scaled quantity 10, not the
strategy quantity computed by the replication service. -/
theorem worker_quantity_ignores_copy_strategy :
    rel_fixed_qty.copy_strategy = CopyStrategy.FIXED_QUANTITY ∧
    ((execute_follower_order demo_users master_order10 rel_fixed_qty demo_broker_ok
        50).newOrder.map Order.quantity) = some 10 ∧
    calculate_follower_quantity follower7 rel_fixed_qty master_order10 = 5 ∧
    ((execute_follower_order demo_users master_order10 rel_fixed_qty demo_broker_ok
        50).newOrder.map Order.quantity)
      ≠ some (calculate_follower_quantity follower7 rel_fixed_qty master_order10) := by
  refine ⟨rfl, ?_, ?_, ?_⟩ <;> decide

/-- C2 amended: on the NEW path the worker computes every follower quantity
as int(master quantity times ratio) whatever the copy strategy (agreeing
with the strategy table only in the FIXED_RATIO case), and a non-positive
result skips the follower with no broker call, no Order row, no OrderMap
row and a falsy return value. -/
theorem worker_quantity_is_ratio_scaled (users : List User) (master : Order)
    (rel : FollowerRelationship) (broker : Nat → BrokerResult) (k : Nat) :
    (∀ o : Order,
      (execute_follower_order users master rel broker k).newOrder = some o →
      o.quantity = pyInt ((master.quantity : ℚ) * rel.ratio)) ∧
    (rel.copy_strategy = CopyStrategy.FIXED_RATIO →
      ∀ u : User, calculate_follower_quantity u rel master
        = pyInt ((master.quantity : ℚ) * rel.ratio)) ∧
    (∀ fu : User, users.find? (fun u => u.id == rel.follower_id) = some fu →
      fu.is_active = true →
      pyInt ((master.quantity : ℚ) * rel.ratio) ≤ 0 →
      execute_follower_order users master rel broker k = skipped_outcome rel ∧
      (skipped_outcome rel).brokerCalled = false ∧
      (skipped_outcome rel).newOrder = none ∧
      (skipped_outcome rel).orderMapRow = none ∧
      (skipped_outcome rel).retVal = none) := by
  refine ⟨?_, ?_, ?_⟩
  · intro o ho
    rcases hf : users.find? (fun u => u.id == rel.follower_id) with _ | fu
    · simp [execute_follower_order, hf, skipped_outcome] at ho
    · simp only [execute_follower_order, hf] at ho
      split_ifs at ho with h1 h2
      · simp [skipped_outcome] at ho
      · simp [skipped_outcome] at ho
      · cases hb : broker rel.follower_id <;> rw [hb] at ho <;>
          simp only [] at ho
        · obtain rfl := Option.some.inj ho
          rfl
        · exact absurd ho (by simp)
        · exact absurd ho (by simp)
  · intro h u
    simp [calculate_follower_quantity, h]
  · intro fu hfu hact hle
    refine ⟨?_, rfl, rfl, rfl, rfl⟩
    simp [execute_follower_order, hfu, hact, hle]

unseal Rat.mul in
set_option maxRecDepth 8000 in
/-- Witness for C2 amended: the ratio-zero relationship is skipped with no
broker call. -/
theorem worker_quantity_is_ratio_scaled_witness :
    demo_users.find? (fun u => u.id == rel_zero.follower_id) = some follower7 ∧
    follower7.is_active = true ∧
    pyInt ((master_order10.quantity : ℚ) * rel_zero.ratio) ≤ 0 ∧
    execute_follower_order demo_users master_order10 rel_zero demo_broker_ok 9
      = skipped_outcome rel_zero := by
  refine ⟨by decide, rfl, by decide, ?_⟩
  exact ((worker_quantity_is_ratio_scaled demo_users master_order10 rel_zero
    demo_broker_ok 9).2.2 follower7 (by decide) rfl
    (by decide)).1

/-- Predicate deciding whether the fan-out records an OrderMap row (SUCCESS
or FAILED) for a relationship: the follower user exists and is active, the
scaled quantity is positive, and the broker call does not end in an
unexpected exception. -/
def records_row (users : List User) (master : Order) (broker : Nat → BrokerResult)
    (r : FollowerRelationship) : Bool :=
  match users.find? (fun u => u.id == r.follower_id) with
  | none => false
  | some fu =>
    if fu.is_active = false then false
    else if pyInt ((master.quantity : ℚ) * r.ratio) ≤ 0 then false
    else
      match broker r.follower_id with
      | BrokerResult.otherError _ => false
      | _ => true

/-- Helper: the outcome of one relationship holds an OrderMap row exactly
when records_row says so. -/
theorem execute_follower_order_records (users : List User) (master : Order)
    (rel : FollowerRelationship) (broker : Nat → BrokerResult) (k : Nat) :
    (execute_follower_order users master rel broker k).orderMapRow.isSome
      = records_row users master broker rel := by
  unfold execute_follower_order records_row
  cases users.find? (fun u => u.id == rel.follower_id) with
  | none => rfl
  | some fu =>
    dsimp only
    split_ifs <;> try rfl
    cases broker rel.follower_id <;> rfl

/-- Helper: the number of OrderMap rows produced by a fan-out equals the
number of relationships satisfying records_row. -/
theorem fanout_rows_length (users : List User) (master : Order)
    (broker : Nat → BrokerResult) :
    ∀ (rels : List FollowerRelationship) (k : Nat),
      ((fanout users master broker rels k).filterMap
          FollowerOutcome.orderMapRow).length
        = (rels.filter (records_row users master broker)).length := by
  intro rels
  induction rels with
  | nil => intro k; rfl
  | cons r rs ih =>
    intro k
    simp only [fanout, List.filter_cons]
    have h := execute_follower_order_records users master r broker k
    cases hrow : (execute_follower_order users master r broker k).orderMapRow with
    | none =>
      have hr : records_row users master broker r = false := by
        rw [← h, hrow]; rfl
      rw [List.filterMap_cons_none hrow, hr]
      simpa using ih (k + 1)
    | some row =>
      have hr : records_row users master broker r = true := by
        rw [← h, hrow]; rfl
      rw [List.filterMap_cons_some hrow, hr]
      simpa using ih (k + 1)

unseal Rat.mul in
set_option maxRecDepth 8000 in
/-- C7 counterexample: one active auto-follow follower whose scaled
quantity rounds to zero yields zero OrderMap rows, not one row per
follower. -/
theorem skipped_follower_breaks_row_count :
    rel_zero.is_active = true ∧ rel_zero.auto_follow = true ∧
    ((handle_new_order [master_order10] demo_users [rel_zero] 10 demo_broker_ok
        100).outcomes.filterMap FollowerOutcome.orderMapRow).length
      ≠ ([rel_zero].filter fun r =>
          r.master_id == master001.id && r.is_active && r.auto_follow).length := by
  refine ⟨rfl, rfl, ?_⟩
  decide

/-- C7 amended: after a NEW fan-out the number of OrderMap rows for the
master equals the number of active auto-follow relationships whose follower
user is active, whose scaled quantity is positive, and whose broker call
returned either a success or an order rejection; skipped followers and
unexpected per-follower exceptions leave no row. -/
theorem order_map_rows_count_recorded_followers (users : List User)
    (master : Order) (broker : Nat → BrokerResult)
    (rels : List FollowerRelationship) (k : Nat) :
    ((fanout users master broker rels k).filterMap
        FollowerOutcome.orderMapRow).length
      = (rels.filter (records_row users master broker)).length ∧
    ∀ (orders : List Order) (mid base_id : Nat) (mu : User),
      orders.find? (fun o => o.id == mid) = some master →
      users.find? (fun u => u.id == master.user_id) = some mu →
      ((handle_new_order orders users rels mid broker base_id).outcomes.filterMap
          FollowerOutcome.orderMapRow).length
        = ((rels.filter fun r => r.master_id == mu.id && r.is_active && r.auto_follow).filter
            (records_row users master broker)).length := by
  refine ⟨fanout_rows_length users master broker rels k, ?_⟩
  intro orders mid base_id mu hmaster hmu
  unfold handle_new_order
  simp only [hmaster, hmu]
  split
  · rename_i hempty
    rw [List.isEmpty_iff] at hempty
    rw [hempty]
    rfl
  · exact fanout_rows_length users master broker _ base_id

unseal Rat.mul in
set_option maxRecDepth 8000 in
/-- Witness for C7 amended: with one recorded and one skipped relationship
the row count matches the recorded-follower count. -/
theorem order_map_rows_count_recorded_followers_witness :
    ([rel7, rel_zero].filter
        (records_row demo_users master_order10 demo_broker_ok)).length = 1 ∧
    ((handle_new_order [master_order10] demo_users [rel7, rel_zero] 10
        demo_broker_ok 100).outcomes.filterMap FollowerOutcome.orderMapRow).length
      = (([rel7, rel_zero].filter fun r =>
            r.master_id == master001.id && r.is_active && r.auto_follow).filter
          (records_row demo_users master_order10 demo_broker_ok)).length := by
  refine ⟨by decide, ?_⟩
  exact (order_map_rows_count_recorded_followers demo_users master_order10
    demo_broker_ok [rel7, rel_zero] 100).2 [master_order10] 10 100 master001
    (by decide) (by decide)

end Replicon
